import Mathlib

/-!
Verification of the core protocol logic of an automotive diagnostics stack:
CAN frame construction (can/mod.rs), the ISO 15765-2 (ISO-TP) segmentation
and reassembly engine (isotp/mod.rs, isotp/types.rs, isotp/constants.rs),
and the ISO 14229 (UDS) request/response engine (uds/mod.rs, uds/error.rs,
uds/constants.rs).

The Rust sources are shallowly embedded: pure functions become Lean
functions, the stateful send/receive loops become recursive functions over
the explicit list of frames or datagrams delivered by the stream, machine
integers become Nat with explicit truncation where the source casts, and
fallible operations return Except.  A Rust index or slice operation that can
panic is modelled by an outer Option layer: the value none marks a panic.
Durations are modelled as a count of microseconds.
-/

deriving instance DecidableEq for Except

namespace Automotive

/-! ## CAN layer (can/mod.rs) -/

/-- Valid CAN data lengths, from the static DLC_TO_LEN table in can/mod.rs. -/
def DLC_TO_LEN : List Nat := [0, 1, 2, 3, 4, 5, 6, 7, 8, 12, 16, 20, 24, 32, 48, 64]

/-- Identifier for a CAN frame (Standard 11-bit or Extended 29-bit). -/
inductive Identifier
  | Standard (id : Nat)
  | Extended (id : Nat)
deriving DecidableEq, Repr

/-- A CAN frame, mirroring struct Frame in can/mod.rs. -/
structure Frame where
  bus : Nat
  id : Identifier
  data : List Nat
  loopback : Bool
  fd : Bool
deriving DecidableEq, Repr

/-- Errors of the ISO-TP module (isotp/error.rs).  The variants Overflow and
TooManyFCWait are referenced by isotp/mod.rs but absent from the older
revision of isotp/error.rs present in the sources; they are modelled from
the spec, which lists both as ISO-TP error kinds. -/
inductive IsotpError
  | DataTooLarge
  | FlowControl
  | OutOfOrder
  | UnknownFrameType
  | MalformedFrame
  | Overflow
  | TooManyFCWait
deriving DecidableEq, Repr

/-- Negative response codes of the UDS module (uds/error.rs). -/
inductive NegativeResponseCode
  | GeneralReject
  | ServiceNotSupported
  | SubFunctionNotSupported
  | IncorrectMessageLengthOrInvalidFormat
  | ResponseTooLong
  | BusyRepeatRequest
  | ConditionsNotCorrect
  | RequestSequenceError
  | NoResponseFromSubnetComponent
  | FailurePreventsExecutionOfRequestedAction
  | RequestOutOfRange
  | SecurityAccessDenied
  | InvalidKey
  | ExeedNumberOfAttempts
  | RequiredTimeDelayNotExpired
  | UploadDownloadNotAccepted
  | TransferDataSuspended
  | GeneralProgrammingFailure
  | WrongBlockSequenceCounter
  | RequestCorrectlyReceivedResponsePending
  | SubFunctionNotSupportedInActiveSession
  | ServiceNotSupportedInActiveSession
  | NonStandard (val : Nat)
deriving DecidableEq, Repr

/-- The conversion impl From of u8 for NegativeResponseCode in uds/error.rs. -/
def NegativeResponseCode.fromU8 (val : Nat) : NegativeResponseCode :=
  if val = 0x10 then .GeneralReject
  else if val = 0x11 then .ServiceNotSupported
  else if val = 0x12 then .SubFunctionNotSupported
  else if val = 0x13 then .IncorrectMessageLengthOrInvalidFormat
  else if val = 0x14 then .ResponseTooLong
  else if val = 0x21 then .BusyRepeatRequest
  else if val = 0x22 then .ConditionsNotCorrect
  else if val = 0x24 then .RequestSequenceError
  else if val = 0x25 then .NoResponseFromSubnetComponent
  else if val = 0x26 then .FailurePreventsExecutionOfRequestedAction
  else if val = 0x31 then .RequestOutOfRange
  else if val = 0x33 then .SecurityAccessDenied
  else if val = 0x35 then .InvalidKey
  else if val = 0x36 then .ExeedNumberOfAttempts
  else if val = 0x37 then .RequiredTimeDelayNotExpired
  else if val = 0x70 then .UploadDownloadNotAccepted
  else if val = 0x71 then .TransferDataSuspended
  else if val = 0x72 then .GeneralProgrammingFailure
  else if val = 0x73 then .WrongBlockSequenceCounter
  else if val = 0x78 then .RequestCorrectlyReceivedResponsePending
  else if val = 0x7e then .SubFunctionNotSupportedInActiveSession
  else if val = 0x7f then .ServiceNotSupportedInActiveSession
  else .NonStandard val

/-- Errors of the UDS module (uds/error.rs). -/
inductive UdsError
  | InvalidServiceId (id : Nat)
  | InvalidSubFunction (id : Nat)
  | InvalidDataIdentifier (id : Nat)
  | InvalidResponseLength
  | NegativeResponse (code : NegativeResponseCode)
deriving DecidableEq, Repr

/-- The crate-level error type (error.rs), restricted to the variants the
modelled core can produce.  Module errors are wrapped as in the source's
From conversions used by the question-mark operator. -/
inductive Error
  | MalformedFrame
  | Timeout
  | IsoTPError (e : IsotpError)
  | UDSError (e : UdsError)
deriving DecidableEq, Repr

/-- Whether an identifier is within range; the bounds come from the match in
Frame::new (can/mod.rs): Standard ids are at most 0x7ff and Extended ids at
most 0x1fffffff. -/
def Identifier.inRange : Identifier → Prop
  | .Standard i => i ≤ 0x7ff
  | .Extended i => i ≤ 0x1fffffff

instance (id : Identifier) : Decidable id.inRange := by
  cases id <;> simp [Identifier.inRange] <;> infer_instance

/-- Frame::new from can/mod.rs: validates the data length against
DLC_TO_LEN and the identifier range, and constructs the frame with
loopback false and fd true exactly when the payload exceeds 8 bytes. -/
def Frame.new (bus : Nat) (id : Identifier) (data : List Nat) : Except Error Frame :=
  if ¬ (data.length ∈ DLC_TO_LEN) then .error .MalformedFrame
  else if (match id with
           | .Standard i => decide (i > 0x7ff)
           | .Extended i => decide (i > 0x1fffffff)) then .error .MalformedFrame
  else .ok { bus := bus, id := id, data := data, loopback := false, fd := decide (data.length > 8) }

/-- The equality relation on Frame generated by derive PartialEq in
can/mod.rs: a derived PartialEq compares every field of the struct,
its loopback field included. -/
def Frame.beq (a b : Frame) : Bool :=
  a.bus == b.bus && a.id == b.id && a.data == b.data && a.loopback == b.loopback && a.fd == b.fd

/-! ## UDS layer (uds/mod.rs) -/

/-- POSITIVE_RESPONSE from uds/constants.rs. -/
def POSITIVE_RESPONSE : Nat := 0x40

/-- NEGATIVE_RESPONSE from uds/constants.rs. -/
def NEGATIVE_RESPONSE : Nat := 0x7f

/-- Result of processing one received datagram inside the loop of
UDSClient::request: keep looping (response pending), finish with a result,
or hit an out-of-bounds index (a Rust panic). -/
inductive ReqStep
  | pending
  | done (r : Except UdsError (List Nat))
  | panicked
deriving DecidableEq, Repr

/-- One iteration of the response loop of UDSClient::request (uds/mod.rs,
lines 54-84), for a single received ISO-TP datagram.  Indexing follows the
source exactly: response[0] is read first, response[2] only on the negative
response path, and response[1] only when a sub-function was sent and the
service id echo matched. -/
def requestStep (sid : Nat) (subFunction : Option Nat) (response : List Nat) : ReqStep :=
  match response[0]? with
  | none => .panicked
  | some responseSid =>
    if responseSid = NEGATIVE_RESPONSE then
      match response[2]? with
      | none => .panicked
      | some nrc =>
        if NegativeResponseCode.fromU8 nrc = .RequestCorrectlyReceivedResponsePending then
          .pending
        else
          .done (.error (.NegativeResponse (NegativeResponseCode.fromU8 nrc)))
    else if responseSid ≠ (sid ||| POSITIVE_RESPONSE) then
      .done (.error (.InvalidServiceId responseSid))
    else
      match subFunction with
      | some sf =>
        match response[1]? with
        | none => .panicked
        | some b =>
          if b ≠ sf then .done (.error (.InvalidSubFunction b))
          else .done (.ok (response.drop 2))
      | none => .done (.ok (response.drop 1))

/-- Outcome of UDSClient::request run against a finite list of received
datagrams: a returned result, a panic, or exhaustion of the supplied
datagrams while still waiting (the source would keep awaiting the stream). -/
inductive ReqOutcome
  | result (r : Except UdsError (List Nat))
  | panicked
  | exhausted
deriving DecidableEq, Repr

/-- The response loop of UDSClient::request, consuming received datagrams in
order.  The request itself is sent once before the loop; no iteration sends
anything, so a pending response simply moves to the next datagram. -/
def request (sid : Nat) (subFunction : Option Nat) : List (List Nat) → ReqOutcome
  | [] => .exhausted
  | d :: rest =>
    match requestStep sid subFunction d with
    | .pending => request sid subFunction rest
    | .done r => .result r
    | .panicked => .panicked

/-- Milliseconds to the microsecond count of the modelled Duration
(std::time::Duration::from_millis). -/
def durationFromMillis (ms : Nat) : Nat := ms * 1000

/-- Big-endian u16 from two bytes (u16::from_be_bytes). -/
def u16FromBeBytes (b0 b1 : Nat) : Nat := b0 * 256 + b1

/-- Session parameter record returned by DiagnosticSessionControl
(uds/types.rs); both fields are modelled in microseconds. -/
structure SessionParameterRecord where
  p2_server_max : Nat
  p2_star_server_max : Nat
deriving DecidableEq, Repr

/-- The response decoding of UDSClient::diagnostic_session_control
(uds/mod.rs, lines 97-109), applied to the data returned by request.  The
source computes both p2_server_max and p2_star_server_max from result[0]
and result[1]; bytes 2 and 3 of the record are never read. -/
def diagnosticSessionControlDecode (result : List Nat) : Option SessionParameterRecord :=
  if result.length = 4 then
    let p2ServerMax := u16FromBeBytes (result.getD 0 0) (result.getD 1 0)
    let p2StarServerMax := u16FromBeBytes (result.getD 0 0) (result.getD 1 0)
    some { p2_server_max := durationFromMillis p2ServerMax,
           p2_star_server_max := durationFromMillis (p2StarServerMax * 10) }
  else none

/-- Modelled from the spec: the DiagnosticSessionControl row of the service
table says P2 is the big-endian u16 of bytes 0 and 1 in milliseconds and
P2-star is the big-endian u16 of bytes 2 and 3 times 10 milliseconds.  This
definition follows the spec's words, to be compared with
diagnosticSessionControlDecode, which follows the source. -/
def diagnosticSessionControlDecodeSpec (result : List Nat) : Option SessionParameterRecord :=
  if result.length = 4 then
    some { p2_server_max := durationFromMillis (u16FromBeBytes (result.getD 0 0) (result.getD 1 0)),
           p2_star_server_max :=
             durationFromMillis (u16FromBeBytes (result.getD 2 0) (result.getD 3 0) * 10) }
  else none

/-! ## ISO-TP layer (isotp/mod.rs) -/

/-- DEFAULT_PADDING_BYTE from isotp/mod.rs. -/
def DEFAULT_PADDING_BYTE : Nat := 0xAA

/-- MAX_WAIT_FC from isotp/mod.rs: the loop bound of receive_flow_control,
documented in the source as N_WFTmax of ISO 15765-2. -/
def MAX_WAIT_FC : Nat := 10

/-- CAN_MAX_DLEN from isotp/mod.rs. -/
def CAN_MAX_DLEN : Nat := 8

/-- CAN_FD_MAX_DLEN from isotp/mod.rs. -/
def CAN_FD_MAX_DLEN : Nat := 64

/-- ISO_TP_MAX_DLEN from isotp/mod.rs. -/
def ISO_TP_MAX_DLEN : Nat := 2 ^ 12 - 1

/-- ISO_TP_FD_MAX_DLEN from isotp/mod.rs. -/
def ISO_TP_FD_MAX_DLEN : Nat := 2 ^ 32 - 1

/-- FRAME_TYPE_MASK from isotp/constants.rs. -/
def FRAME_TYPE_MASK : Nat := 0xf0

/-- ISO-TP frame types (isotp/constants.rs). -/
inductive FrameType
  | Single
  | First
  | Consecutive
  | FlowControl
deriving DecidableEq, Repr

/-- FrameType::from_repr: the discriminants of the FrameType enum are 0x00,
0x10, 0x20 and 0x30; every other value has no representation.  (The Unknown
discriminant 0xff of the enum cannot arise from a value masked with
FRAME_TYPE_MASK.) -/
def FrameType.fromRepr (v : Nat) : Option FrameType :=
  if v = 0x00 then some .Single
  else if v = 0x10 then some .First
  else if v = 0x20 then some .Consecutive
  else if v = 0x30 then some .FlowControl
  else none

/-- Modelled from the spec: the flow-status nibble of a Flow Control frame,
0 ContinueToSend, 1 Wait, 2 Overflow.  FlowStatus and FLOW_SATUS_MASK are
referenced by isotp/mod.rs but absent from the older revision of
isotp/constants.rs present in the sources. -/
inductive FlowStatus
  | ContinueToSend
  | Wait
  | Overflow
deriving DecidableEq, Repr

/-- Modelled from the spec: FlowStatus::from_repr over the low nibble. -/
def FlowStatus.fromRepr (v : Nat) : Option FlowStatus :=
  if v = 0 then some .ContinueToSend
  else if v = 1 then some .Wait
  else if v = 2 then some .Overflow
  else none

/-- Modelled from the spec: the flow-status mask selects the low nibble of
the first Flow Control byte. -/
def FLOW_SATUS_MASK : Nat := 0x0f

/-- The IsoTPConfig struct (isotp/mod.rs); durations in microseconds. -/
structure IsoTPConfig where
  bus_ : Nat
  tx_ : Identifier
  rx_ : Identifier
  padding_ : Option Nat
  timeout_ : Nat
  separation_time_min_ : Option Nat
  fd_ : Bool
  ext_address_ : Option Nat
  max_dlen_ : Option Nat
deriving DecidableEq, Repr

/-- The Default impl for IsoTPConfig. -/
def IsoTPConfig.default : IsoTPConfig :=
  { bus_ := 0
    tx_ := .Standard 0
    rx_ := .Standard 0
    padding_ := some DEFAULT_PADDING_BYTE
    timeout_ := durationFromMillis 100
    separation_time_min_ := none
    fd_ := false
    ext_address_ := none
    max_dlen_ := none }

/-- IsoTPAdapter::offset: 1 with extended addressing, 0 otherwise. -/
def IsoTPConfig.offset (cfg : IsoTPConfig) : Nat :=
  if cfg.ext_address_.isSome then 1 else 0

/-- IsoTPAdapter::can_max_dlen. -/
def IsoTPConfig.canMaxDlen (cfg : IsoTPConfig) : Nat :=
  CAN_MAX_DLEN - cfg.offset

/-- IsoTPAdapter::can_fd_max_dlen. -/
def IsoTPConfig.canFdMaxDlen (cfg : IsoTPConfig) : Nat :=
  CAN_FD_MAX_DLEN - cfg.offset

/-- IsoTPAdapter::max_can_data_length.  With a configured max_dlen below
the extended-address offset the usize subtraction dlen - offset underflows
in the source (a panic in a debug build); this Nat model truncates exactly
those configurations to 0.  Hence maxCanDataLength = 0 holds precisely when
the source either panics here or returns a genuine 0 — and in the latter
case every caller that goes on to compute tx_dl - 1 underflows in turn —
so the callers that evaluate such a subtraction (isotpSend,
recvConsecutiveFrame) model the panic by a none result guarded on
maxCanDataLength = 0. -/
def IsoTPConfig.maxCanDataLength (cfg : IsoTPConfig) : Nat :=
  match cfg.max_dlen_ with
  | some dlen => dlen - cfg.offset
  | none => if cfg.fd_ then cfg.canFdMaxDlen else cfg.canMaxDlen

/-- IsoTPAdapter::max_isotp_data_length. -/
def IsoTPConfig.maxIsotpDataLength (cfg : IsoTPConfig) : Nat :=
  if cfg.fd_ then ISO_TP_FD_MAX_DLEN else ISO_TP_MAX_DLEN

/-- IsoTPAdapter::pad (isotp/mod.rs, lines 162-182).  The value len is
computed once at entry and the source keeps using it after the first
padding extension, exactly as modelled here.  The none result models the
unwrap panic when no DLC entry exceeds the data length. -/
def IsoTPConfig.pad (cfg : IsoTPConfig) (data : List Nat) : Option (List Nat) :=
  let len := data.length + cfg.offset
  let data1 :=
    match cfg.padding_ with
    | some padding =>
      if len < CAN_MAX_DLEN then data ++ List.replicate (CAN_MAX_DLEN - len) padding else data
    | none => data
  if len ∈ DLC_TO_LEN then some data1
  else
    match DLC_TO_LEN.find? (fun x => data1.length < x) with
    | none => none
    | some dl =>
      some (data1 ++ List.replicate (dl - len) (cfg.padding_.getD DEFAULT_PADDING_BYTE))

/-- IsoTPAdapter::frame (isotp/mod.rs, lines 223-245): prepend the extended
address when configured, validate the resulting length against DLC_TO_LEN,
and build the CAN frame on the transmit identifier. -/
def IsoTPConfig.frame (cfg : IsoTPConfig) (data : List Nat) : Except Error Frame :=
  let data :=
    match cfg.ext_address_ with
    | some extAddress => extAddress :: data
    | none => data
  if ¬ (data.length ∈ DLC_TO_LEN) then .error .MalformedFrame
  else .ok { bus := cfg.bus_, id := cfg.tx_, data := data, loopback := false, fd := cfg.fd_ }

/-- IsoTPAdapter::send_single_frame (isotp/mod.rs, lines 247-266), returning
the frame handed to the CAN adapter.  The source casts the length to u8 in
the header bytes, hence the modulo 256. -/
def sendSingleFrame (cfg : IsoTPConfig) (data : List Nat) : Option (Except Error Frame) :=
  let buf :=
    if data.length < cfg.canMaxDlen then
      (0x00 ||| data.length % 256) :: data
    else
      0x00 :: data.length % 256 :: data
  match cfg.pad buf with
  | none => none
  | some padded => some (cfg.frame padded)

/-- Big-endian bytes of a u32 (u32::to_be_bytes). -/
def u32ToBeBytes (v : Nat) : List Nat :=
  [v / 2 ^ 24 % 256, v / 2 ^ 16 % 256, v / 2 ^ 8 % 256, v % 256]

/-- IsoTPAdapter::send_first_frame (isotp/mod.rs, lines 268-288), returning
the frame handed to the CAN adapter and the header length (the offset
returned by the source, 2 without and 6 with the length escape).  The none
results model the slice panics when the payload or the configured frame
length is too short for the header. -/
def sendFirstFrame (cfg : IsoTPConfig) (data : List Nat) :
    Option (Except Error (Frame × Nat)) :=
  let buf :=
    if data.length ≤ ISO_TP_MAX_DLEN then
      [0x10 ||| data.length / 2 ^ 8 % 16, data.length % 256]
    else
      [0x10, 0x00] ++ u32ToBeBytes (data.length % 2 ^ 32)
  let off := buf.length
  if cfg.maxCanDataLength < off then none
  else if data.length < cfg.maxCanDataLength - off then none
  else
    match cfg.frame (buf ++ data.take (cfg.maxCanDataLength - off)) with
    | .error e => some (.error e)
    | .ok f => some (.ok (f, off))

/-- IsoTPAdapter::send_consecutive_frame (isotp/mod.rs, lines 290-304): the
4-bit sequence number is (idx + 1) masked to a nibble. -/
def sendConsecutiveFrame (cfg : IsoTPConfig) (data : List Nat) (idx : Nat) :
    Option (Except Error Frame) :=
  let seq := (idx + 1) % 16
  let buf := (0x20 ||| seq) :: data
  match cfg.pad buf with
  | none => none
  | some padded => some (cfg.frame padded)

/-- The block size and separation time announced by a ContinueToSend Flow
Control (isotp/types.rs); separation time in microseconds. -/
structure FlowControlConfig where
  block_size : Nat
  separation_time_min : Nat
deriving DecidableEq, Repr

/-- TryFrom of a Frame for FlowControlConfig (isotp/types.rs): byte 1 is the
block size; byte 2 encodes STmin, 0x00-0x7f whole milliseconds and
0xf1-0xf9 hundreds of microseconds, anything else MalformedFrame. -/
def FlowControlConfig.tryFrom (data : List Nat) : Except Error FlowControlConfig :=
  if data.length < 3 then .error (.IsoTPError .MalformedFrame)
  else
    let blockSize := data.getD 1 0
    let st := data.getD 2 0
    if st ≤ 0x7f then .ok { block_size := blockSize, separation_time_min := durationFromMillis st }
    else if 0xf1 ≤ st ∧ st ≤ 0xf9 then
      .ok { block_size := blockSize, separation_time_min := (st - 0xf0) * 100 }
    else .error (.IsoTPError .MalformedFrame)

/-- IsoTPAdapter::receive_flow_control (isotp/mod.rs, lines 306-342) with
explicit fuel for the for-loop over 0..MAX_WAIT_FC.  The input list holds
the data of the frames produced by the filtered receive stream, in order; an
exhausted list models the stream timing out (the Elapsed error converted to
Error::Timeout by the question-mark operator).  On success the unconsumed
remainder of the stream is returned alongside the parsed configuration. -/
def receiveFlowControlAux (cfg : IsoTPConfig) :
    Nat → List (List Nat) → Option (Except Error (FlowControlConfig × List (List Nat)))
  | 0, _ => some (.error (.IsoTPError .TooManyFCWait))
  | _ + 1, [] => some (.error .Timeout)
  | n + 1, fdata :: rest =>
    if fdata.length < cfg.offset then none
    else
      let data := fdata.drop cfg.offset
      match data[0]? with
      | none => none
      | some b0 =>
        if FrameType.fromRepr (b0 &&& FRAME_TYPE_MASK) ≠ some FrameType.FlowControl then
          some (.error (.IsoTPError .FlowControl))
        else
          match FlowStatus.fromRepr (b0 &&& FLOW_SATUS_MASK) with
          | some .ContinueToSend =>
            match FlowControlConfig.tryFrom data with
            | .error e => some (.error e)
            | .ok c => some (.ok (c, rest))
          | some .Wait => receiveFlowControlAux cfg n rest
          | some .Overflow => some (.error (.IsoTPError .Overflow))
          | none => some (.error (.IsoTPError .MalformedFrame))

/-- receive_flow_control with its loop bound MAX_WAIT_FC. -/
def receiveFlowControl (cfg : IsoTPConfig) (frames : List (List Nat)) :
    Option (Except Error (FlowControlConfig × List (List Nat))) :=
  receiveFlowControlAux cfg MAX_WAIT_FC frames

/-- An observable action of the sender: a frame handed to the CAN adapter,
or a separation-time sleep (microseconds). -/
inductive TxEvent
  | tx (f : Frame)
  | sleep (us : Nat)
deriving DecidableEq, Repr

/-- The slice chunks iterator of Rust for chunk size n at least 1, via a
fuel argument (each step consumes at least one element). -/
def chunksOfAux (n : Nat) : Nat → List Nat → List (List Nat)
  | 0, _ => []
  | _, [] => []
  | fuel + 1, l => l.take n :: chunksOfAux n fuel (l.drop n)

/-- The chunks of a list, n elements each, last chunk possibly shorter. -/
def chunksOf (n : Nat) (l : List Nat) : List (List Nat) :=
  chunksOfAux n l.length l

/-- The while-let loop of IsoTPAdapter::send_multiple (isotp/mod.rs, lines
374-388).  Arguments follow the loop state: the current flow-control
configuration (reassigned when a block boundary consumes a new Flow
Control), the remaining receive stream, the remaining chunks and the
enumeration index.  stMin is the effective separation time, computed once
before the loop.  Returns the emitted events together with the outcome
(none models a panic). -/
def sendMultipleLoop (cfg : IsoTPConfig) (stMin : Nat) :
    FlowControlConfig → List (List Nat) → List (List Nat) → Nat →
    List TxEvent × Option (Except Error Unit)
  | _, _, [], _ => ([], some (.ok ()))
  | fcConfig, stream, chunk :: rest, idx =>
    match sendConsecutiveFrame cfg chunk idx with
    | none => ([], none)
    | some (.error e) => ([], some (.error e))
    | some (.ok f) =>
      if fcConfig.block_size ≠ 0 ∧ idx > 0 ∧ idx % fcConfig.block_size = 0 then
        match receiveFlowControl cfg stream with
        | none => ([TxEvent.tx f], none)
        | some (.error e) => ([TxEvent.tx f], some (.error e))
        | some (.ok (fc2, stream2)) =>
          let r := sendMultipleLoop cfg stMin fc2 stream2 rest (idx + 1)
          (TxEvent.tx f :: r.1, r.2)
      else
        let sleeps : List TxEvent := if rest.isEmpty then [] else [TxEvent.sleep stMin]
        let r := sendMultipleLoop cfg stMin fcConfig stream rest (idx + 1)
        (TxEvent.tx f :: sleeps ++ r.1, r.2)

/-- IsoTPAdapter::send_multiple (isotp/mod.rs, lines 344-391): send the
First Frame, await the initial Flow Control, fix the effective separation
time (the configured override, else the value the peer requested in that
initial Flow Control), and run the Consecutive Frame loop over the chunks
of the remaining payload. -/
def sendMultiple (cfg : IsoTPConfig) (data : List Nat) (stream : List (List Nat)) :
    List TxEvent × Option (Except Error Unit) :=
  match sendFirstFrame cfg data with
  | none => ([], none)
  | some (.error e) => ([], some (.error e))
  | some (.ok (ff, off)) =>
    match receiveFlowControl cfg stream with
    | none => ([TxEvent.tx ff], none)
    | some (.error e) => ([TxEvent.tx ff], some (.error e))
    | some (.ok (fcConfig, stream2)) =>
      let stMin :=
        match cfg.separation_time_min_ with
        | some st => st
        | none => fcConfig.separation_time_min
      let txDl := cfg.maxCanDataLength
      if txDl < off ∨ data.length < txDl - off ∨ txDl - 1 = 0 then ([TxEvent.tx ff], none)
      else
        let chunks := chunksOf (txDl - 1) (data.drop (txDl - off))
        let r := sendMultipleLoop cfg stMin fcConfig stream2 chunks 0
        (TxEvent.tx ff :: r.1, r.2)

/-- IsoTPAdapter::send (isotp/mod.rs, lines 393-410): a Single Frame when
the payload fits (one byte of header on classic CAN, two with the CAN-FD
escape), the multi-frame protocol when the payload is within the mode's
maximum datagram length, and DataTooLarge otherwise, before any frame is
handed to the adapter.  The initial guard models the usize underflow of
max_can_data_length() - 1 at line 399 (a panic in a debug build): the
short-circuiting || evaluates that subtraction only when the payload does
not already fit the classic single-frame bound, and maxCanDataLength = 0
captures both an underflow inside max_can_data_length itself and a genuine
0 result. -/
def isotpSend (cfg : IsoTPConfig) (data : List Nat) (stream : List (List Nat)) :
    List TxEvent × Option (Except Error Unit) :=
  if cfg.canMaxDlen ≤ data.length ∧ cfg.maxCanDataLength = 0 then ([], none)
  else
  let fitsInSingleFrame :=
    data.length < cfg.canMaxDlen ∨ data.length < cfg.maxCanDataLength - 1
  if fitsInSingleFrame then
    match sendSingleFrame cfg data with
    | none => ([], none)
    | some (.error e) => ([], some (.error e))
    | some (.ok f) => ([TxEvent.tx f], some (.ok ()))
  else if data.length ≤ cfg.maxIsotpDataLength then
    sendMultiple cfg data stream
  else
    ([], some (.error (.IsoTPError .DataTooLarge)))

/-- IsoTPAdapter::recv_single_frame (isotp/mod.rs, lines 412-430). -/
def recvSingleFrame (data : List Nat) : Option (Except Error (List Nat)) :=
  match data[0]? with
  | none => none
  | some b0 =>
    let len := b0 &&& 0xF
    if len = 0 then
      match data[1]? with
      | none => none
      | some l =>
        if l + 2 > data.length then some (.error (.IsoTPError .MalformedFrame))
        else some (.ok ((data.drop 2).take l))
    else
      if len + 1 > data.length then some (.error (.IsoTPError .MalformedFrame))
      else some (.ok ((data.drop 1).take len))

/-- IsoTPAdapter::recv_first_frame (isotp/mod.rs, lines 432-462): decode the
declared total length (12-bit, or the 32-bit escape), require a full-length
frame, seed the buffer with the post-header bytes, and transmit a
ContinueToSend Flow Control with block size 0 and STmin 0.  Returns the
declared length, the bytes appended to the buffer, and the Flow Control
frame handed to the adapter.  The escape bytes are read before the
full-length check, as in the source. -/
def recvFirstFrame (cfg : IsoTPConfig) (data : List Nat) :
    Option (Except Error (Nat × List Nat × Frame)) :=
  match data[0]?, data[1]? with
  | some b0, some b1 =>
    let len12 := (b0 * 2 ^ 8 + b1) &&& 0xFFF
    let parsed : Option (Nat × Nat) :=
      if len12 = 0 then
        match data[2]?, data[3]?, data[4]?, data[5]? with
        | some d2, some d3, some d4, some d5 =>
          some (6, ((d2 * 256 + d3) * 256 + d4) * 256 + d5)
        | _, _, _, _ => none
      else some (2, len12)
    match parsed with
    | none => none
    | some (off, len) =>
      if data.length < cfg.maxCanDataLength then some (.error (.IsoTPError .MalformedFrame))
      else
        match cfg.pad [0x30, 0x00, 0x00] with
        | none => none
        | some fcPadded =>
          match cfg.frame fcPadded with
          | .error e => some (.error e)
          | .ok fcFrame => some (.ok (len, data.drop off, fcFrame))
  | _, _ => none

/-- IsoTPAdapter::recv_consecutive_frame (isotp/mod.rs, lines 464-504):
check the length constraints (only the last Consecutive Frame may be
short), append up to the remaining number of bytes, then compare the
low-nibble sequence number against the expected one, advancing it by one
with wraparound from 0xF to 0x0.  The buffer is extended before the
sequence check, as in the source; the none results model the index panic on
an empty payload, the subtraction overflow when the buffer already exceeds
the declared length, and the usize underflow of tx_dl - 1 at line 476 when
max_can_data_length() is 0 (or itself underflows), both rendered by this
model as maxCanDataLength = 0. -/
def recvConsecutiveFrame (cfg : IsoTPConfig) (data : List Nat) (buf : List Nat)
    (len : Nat) (idx : Nat) : Option (Except Error (List Nat × Nat)) :=
  match data[0]? with
  | none => none
  | some b0 =>
    let msgIdx := b0 &&& 0xF
    if len < buf.length then none
    else
      let remainingLen := len - buf.length
      let txDl := cfg.maxCanDataLength
      if txDl = 0 then none
      else
        let malformed :=
          if remainingLen ≥ txDl - 1 then data.length < txDl
          else data.length - 1 < remainingLen
        if malformed then some (.error (.IsoTPError .MalformedFrame))
        else
          let endIdx := min (remainingLen + 1) data.length
          let buf2 := buf ++ (data.drop 1).take (endIdx - 1)
          if msgIdx ≠ idx then some (.error (.IsoTPError .OutOfOrder))
          else some (.ok (buf2, if idx = 0xF then 0 else idx + 1))

/-- Outcome of one reassembly cycle run against a finite list of received
frames: a returned result, a panic, or exhaustion of the supplied frames
while still waiting for more. -/
inductive RecvOutcome
  | result (r : Except Error (List Nat))
  | panicked
  | starved
deriving DecidableEq, Repr

/-- The while-let loop of IsoTPAdapter::recv_from_stream (isotp/mod.rs,
lines 507-549), with the reassembly state explicit: the buffer, the
declared total length (none before a First or Single Frame) and the
expected consecutive-frame sequence number.  Each list element is the data
of one frame from the filtered receive stream.  The Flow Control frame
transmitted on reception of a First Frame is dropped here, as no recorded
claim concerns it. -/
def recvLoop (cfg : IsoTPConfig) :
    List (List Nat) → List Nat → Option Nat → Nat → RecvOutcome
  | [], _, _, _ => .starved
  | fdata :: rest, buf, len, idx =>
    if fdata.length < cfg.offset then .panicked
    else
      let data := fdata.drop cfg.offset
      match data[0]? with
      | none => .panicked
      | some b0 =>
        match FrameType.fromRepr (b0 &&& FRAME_TYPE_MASK) with
        | some FrameType.Single =>
          match recvSingleFrame data with
          | none => .panicked
          | some r => .result r
        | some FrameType.First =>
          if len.isSome then .result (.error (.IsoTPError .OutOfOrder))
          else
            match recvFirstFrame cfg data with
            | none => .panicked
            | some (.error e) => .result (.error e)
            | some (.ok (l, seeded, _)) => recvLoop cfg rest (buf ++ seeded) (some l) idx
        | some FrameType.Consecutive =>
          match len with
          | some l =>
            match recvConsecutiveFrame cfg data buf l idx with
            | none => .panicked
            | some (.error e) => .result (.error e)
            | some (.ok (buf2, idx2)) =>
              if buf2.length ≥ l then .result (.ok buf2)
              else recvLoop cfg rest buf2 (some l) idx2
          | none => .result (.error (.IsoTPError .OutOfOrder))
        | some FrameType.FlowControl => recvLoop cfg rest buf len idx
        | none => .result (.error (.IsoTPError .UnknownFrameType))

/-- IsoTPAdapter::recv_from_stream: one reassembly cycle starting from an
empty buffer, no declared length, and expected sequence number 1. -/
def recvFromStream (cfg : IsoTPConfig) (frames : List (List Nat)) : RecvOutcome :=
  recvLoop cfg frames [] none 1

/-- Whether a transmit event is a Consecutive Frame, judged by the high
nibble of the frame payload byte at the given offset (0 when extended
addressing is disabled). -/
def TxEvent.isCF (off : Nat) : TxEvent → Bool
  | .tx f => (f.data.getD off 0) &&& 0xf0 == 0x20
  | .sleep _ => false

/-- Whether a transmit event is a separation-time sleep. -/
def TxEvent.isSleep : TxEvent → Bool
  | .tx _ => false
  | .sleep _ => true

/-- The default ISO-TP configuration with a separation-time override of
3 ms (3000 microseconds), for observing the override branch of
send_multiple. -/
def overrideConfig : IsoTPConfig :=
  { IsoTPConfig.default with separation_time_min_ := some 3000 }

/-- The two header bytes of a classic-CAN First Frame announcing the given
total length (high nibble 0x1, then the 12-bit length big-endian). -/
def ffHeader (len : Nat) : List Nat :=
  [0x10 ||| len / 2 ^ 8 % 16, len % 256]

/-! ## Theorems -/

/-- C2: Frame::new returns Ok exactly when the data length is a valid DLC
length and the identifier is in range (Standard at most 0x7FF, Extended at
most 0x1FFFFFFF); the constructed frame carries the given data, has fd set
iff the payload exceeds 8 bytes and loopback false; otherwise the call
fails with MalformedFrame. -/
theorem frame_new_correct (bus : Nat) (id : Identifier) (data : List Nat) :
    (data.length ∈ DLC_TO_LEN ∧ id.inRange →
      Frame.new bus id data =
        .ok { bus := bus, id := id, data := data, loopback := false,
              fd := decide (data.length > 8) }) ∧
    (¬ (data.length ∈ DLC_TO_LEN ∧ id.inRange) →
      Frame.new bus id data = .error .MalformedFrame) := by
  constructor
  · rintro ⟨hdlc, hrange⟩
    cases id with
    | Standard i =>
      simp only [Identifier.inRange] at hrange
      simp [Frame.new, hdlc, Nat.not_lt.mpr hrange]
    | Extended i =>
      simp only [Identifier.inRange] at hrange
      simp [Frame.new, hdlc, Nat.not_lt.mpr hrange]
  · intro h
    by_cases hdlc : data.length ∈ DLC_TO_LEN
    · have hrange : ¬ id.inRange := fun hr => h ⟨hdlc, hr⟩
      cases id with
      | Standard i =>
        simp only [Identifier.inRange, not_le] at hrange
        simp [Frame.new, hdlc, hrange]
      | Extended i =>
        simp only [Identifier.inRange, not_le] at hrange
        simp [Frame.new, hdlc, hrange]
    · simp [Frame.new, hdlc]

/-- Witness for C2: a concrete 3-byte frame on a standard identifier. -/
theorem frame_new_correct_witness :
    Frame.new 0 (.Standard 0x7a1) [0x02, 0x3e, 0x00] =
      .ok { bus := 0, id := .Standard 0x7a1, data := [0x02, 0x3e, 0x00], loopback := false,
            fd := decide (([0x02, 0x3e, 0x00] : List Nat).length > 8) } :=
  (frame_new_correct 0 (.Standard 0x7a1) [0x02, 0x3e, 0x00]).1 (by decide)

/-- C3: the code bug of diagnostic_session_control.  On the 4-byte record
00 32 01 F4 the source decodes P2-star from bytes 0 and 1 (giving
50 times 10 = 500 ms, i.e. 500000 microseconds) because it reads result[0]
and result[1] twice, while the spec takes the big-endian u16 of bytes 2 and
3 times 10 ms (giving 5000 ms); bytes 2 and 3 are never read by the
source. -/
theorem diagnostic_session_control_p2_star_bug :
    diagnosticSessionControlDecode [0x00, 0x32, 0x01, 0xF4] =
      some { p2_server_max := 50000, p2_star_server_max := 500000 } ∧
    diagnosticSessionControlDecodeSpec [0x00, 0x32, 0x01, 0xF4] =
      some { p2_server_max := 50000, p2_star_server_max := 5000000 } ∧
    diagnosticSessionControlDecode [0x00, 0x32, 0x01, 0xF4] ≠
      diagnosticSessionControlDecodeSpec [0x00, 0x32, 0x01, 0xF4] := by
  refine ⟨by decide, by decide, by decide⟩

/-- C4 counterexample: two frames that agree on bus, id, data and fd but
differ in loopback are not equal under the derived Frame equality, because
derive PartialEq compares every field of the struct. -/
theorem frame_eq_loopback_counterexample :
    Frame.beq
        { bus := 0, id := .Standard 0x7a1, data := [0x01], loopback := false, fd := false }
        { bus := 0, id := .Standard 0x7a1, data := [0x01], loopback := true, fd := false }
      = false := by
  decide

/-- C4 amended: the derived Frame equality is full structural equality on
all five fields, the loopback flag included. -/
theorem frame_beq_iff_eq (a b : Frame) : Frame.beq a b = true ↔ a = b := by
  cases a
  cases b
  simp only [Frame.beq, Bool.and_eq_true, beq_iff_eq, Frame.mk.injEq]
  tauto

/-- Witness for the amended C4 theorem at a concrete frame. -/
theorem frame_beq_iff_eq_witness :
    Frame.beq
        { bus := 1, id := .Extended 0x18DAF110, data := [0xAA], loopback := true, fd := true }
        { bus := 1, id := .Extended 0x18DAF110, data := [0xAA], loopback := true, fd := true }
      = true :=
  (frame_beq_iff_eq _ _).mpr rfl

set_option maxHeartbeats 1000000 in
/-- The From conversion of uds/error.rs maps exactly the byte 0x78 to
RequestCorrectlyReceivedResponsePending. -/
theorem fromU8_eq_pending_iff (c : Nat) :
    NegativeResponseCode.fromU8 c = .RequestCorrectlyReceivedResponsePending ↔ c = 0x78 := by
  rcases Nat.lt_or_ge c 0x80 with hc | hc
  · interval_cases c <;> decide
  · have hns : NegativeResponseCode.fromU8 c = .NonStandard c := by
      unfold NegativeResponseCode.fromU8
      repeat rw [if_neg (by omega)]
    rw [hns]
    constructor
    · intro h
      exact NegativeResponseCode.noConfusion h
    · intro h
      omega

/-- C1: the response loop of UDSClient::request.  A datagram starting with
0x7F whose NRC byte is 0x78 makes the loop consume it and await the next
datagram without sending anything; a 0x7F datagram with any other NRC
returns NegativeResponse of that code; a non-0x7F datagram whose first byte
differs from sid OR 0x40 returns InvalidServiceId carrying that byte; when
a sub-function was sent and byte 1 of a positive response differs from it,
the call returns InvalidSubFunction carrying that byte; otherwise the call
returns the bytes after the SID (and after the sub-function echo if one was
sent). -/
theorem uds_request_response_handling (sid : Nat) (subFunction : Option Nat)
    (d : List Nat) (rest : List (List Nat)) :
    (d[0]? = some NEGATIVE_RESPONSE → d[2]? = some 0x78 →
      request sid subFunction (d :: rest) = request sid subFunction rest) ∧
    (∀ c, d[0]? = some NEGATIVE_RESPONSE → d[2]? = some c → c ≠ 0x78 →
      request sid subFunction (d :: rest) =
        .result (.error (.NegativeResponse (NegativeResponseCode.fromU8 c)))) ∧
    (∀ b, d[0]? = some b → b ≠ NEGATIVE_RESPONSE → b ≠ sid ||| POSITIVE_RESPONSE →
      request sid subFunction (d :: rest) = .result (.error (.InvalidServiceId b))) ∧
    (∀ sf b, subFunction = some sf → d[0]? = some (sid ||| POSITIVE_RESPONSE) →
      sid ||| POSITIVE_RESPONSE ≠ NEGATIVE_RESPONSE → d[1]? = some b → b ≠ sf →
      request sid subFunction (d :: rest) = .result (.error (.InvalidSubFunction b))) ∧
    (∀ sf, subFunction = some sf → d[0]? = some (sid ||| POSITIVE_RESPONSE) →
      sid ||| POSITIVE_RESPONSE ≠ NEGATIVE_RESPONSE → d[1]? = some sf →
      request sid subFunction (d :: rest) = .result (.ok (d.drop 2))) ∧
    (subFunction = none → d[0]? = some (sid ||| POSITIVE_RESPONSE) →
      sid ||| POSITIVE_RESPONSE ≠ NEGATIVE_RESPONSE →
      request sid subFunction (d :: rest) = .result (.ok (d.drop 1))) := by
  refine ⟨?_, ?_, ?_, ?_, ?_, ?_⟩
  · intro h0 h2
    have hstep : requestStep sid subFunction d = .pending := by
      simp [requestStep, h0, h2, fromU8_eq_pending_iff]
    simp [request, hstep]
  · intro c h0 h2 hc
    have hstep : requestStep sid subFunction d =
        .done (.error (.NegativeResponse (NegativeResponseCode.fromU8 c))) := by
      simp [requestStep, h0, h2, fromU8_eq_pending_iff, hc]
    simp [request, hstep]
  · intro b h0 hneg hsid
    have hstep : requestStep sid subFunction d = .done (.error (.InvalidServiceId b)) := by
      simp [requestStep, h0, hneg, hsid]
    simp [request, hstep]
  · intro sf b hsub h0 hneg h1 hb
    have hstep : requestStep sid subFunction d = .done (.error (.InvalidSubFunction b)) := by
      simp [requestStep, h0, hneg, hsub, h1, hb]
    simp [request, hstep]
  · intro sf hsub h0 hneg h1
    have hstep : requestStep sid subFunction d = .done (.ok (d.drop 2)) := by
      simp [requestStep, h0, hneg, hsub, h1]
    simp [request, hstep]
  · intro hsub h0 hneg
    have hstep : requestStep sid subFunction d = .done (.ok (d.drop 1)) := by
      simp [requestStep, h0, hneg, hsub]
    simp [request, hstep]

/-- Witness for C1: a response-pending datagram followed by a positive
response without sub-function; a concrete negative response; and a concrete
sub-function mismatch. -/
theorem uds_request_response_handling_witness :
    request 0x22 none [[0x7f, 0x22, 0x78], [0x62, 0x12]] = .result (.ok [0x12]) ∧
    request 0x22 none [[0x7f, 0x22, 0x33]] =
      .result (.error (.NegativeResponse (NegativeResponseCode.fromU8 0x33))) ∧
    request 0x3e (some 0x00) [[0x7e, 0x01]] = .result (.error (.InvalidSubFunction 0x01)) := by
  refine ⟨?_, ?_, ?_⟩
  · have h1 := (uds_request_response_handling 0x22 none [0x7f, 0x22, 0x78] [[0x62, 0x12]]).1
      (by decide) (by decide)
    have h2 := (uds_request_response_handling 0x22 none [0x62, 0x12] []).2.2.2.2.2
      rfl (by decide) (by decide)
    rw [h1, h2]
    decide
  · exact (uds_request_response_handling 0x22 none [0x7f, 0x22, 0x33] []).2.1 0x33
      (by decide) (by decide) (by decide)
  · exact (uds_request_response_handling 0x3e (some 0x00) [0x7e, 0x01] []).2.2.2.1 0x00 0x01
      rfl (by decide) (by decide) (by decide) (by decide)

/-- C10: the loop body of UDSClient::request indexes the received datagram
without length checks.  One iteration panics exactly when the datagram is
empty, or starts with 0x7F but is shorter than 3 bytes, or is a positive
response (first byte sid OR 0x40, not 0x7F) shorter than 2 bytes while a
sub-function was sent; in every such case the outcome is a panic, never an
error value.  The loop as a whole panics exactly when the first datagram
panics or is response-pending and the remainder of the loop panics. -/
theorem uds_request_panic_characterization (sid : Nat) (subFunction : Option Nat)
    (d : List Nat) (rest : List (List Nat)) :
    (requestStep sid subFunction d = .panicked ↔
      (d = [] ∨
       (d[0]? = some NEGATIVE_RESPONSE ∧ d.length < 3) ∨
       (d[0]? = some (sid ||| POSITIVE_RESPONSE) ∧ sid ||| POSITIVE_RESPONSE ≠ NEGATIVE_RESPONSE ∧
        subFunction.isSome ∧ d.length < 2))) ∧
    (request sid subFunction (d :: rest) = .panicked ↔
      (requestStep sid subFunction d = .panicked ∨
       (requestStep sid subFunction d = .pending ∧ request sid subFunction rest = .panicked))) := by
  constructor
  · rcases d with _ | ⟨b0, tail⟩
    · simp [requestStep]
    · rcases tail with _ | ⟨b1, tail2⟩
      · by_cases hneg : b0 = NEGATIVE_RESPONSE
        · subst hneg
          simp [requestStep]
        · by_cases hsid : b0 = sid ||| POSITIVE_RESPONSE
          · subst hsid
            cases subFunction with
            | none => simp [requestStep, hneg]
            | some sf => simp [requestStep, hneg]
          · simp [requestStep, hneg, hsid]
      · rcases tail2 with _ | ⟨b2, tail3⟩
        · by_cases hneg : b0 = NEGATIVE_RESPONSE
          · subst hneg
            simp [requestStep]
          · by_cases hsid : b0 = sid ||| POSITIVE_RESPONSE
            · subst hsid
              cases subFunction with
              | none => simp [requestStep, hneg]
              | some sf => simp [requestStep, hneg, ite_eq_iff]
            · simp [requestStep, hneg, hsid]
        · by_cases hneg : b0 = NEGATIVE_RESPONSE
          · subst hneg
            constructor
            · intro h
              simp [requestStep, ite_eq_iff] at h
            · rintro (h | ⟨-, hlen⟩ | ⟨h0, hne, -, -⟩)
              · exact List.noConfusion h
              · simp only [List.length_cons] at hlen
                exact absurd hlen (by omega)
              · simp only [List.getElem?_cons_zero, Option.some.injEq] at h0
                exact absurd h0.symm hne
          · by_cases hsid : b0 = sid ||| POSITIVE_RESPONSE
            · subst hsid
              cases subFunction with
              | none => simp [requestStep, hneg]
              | some sf =>
                constructor
                · intro h
                  simp [requestStep, hneg, ite_eq_iff] at h
                · rintro (h | ⟨h0, -⟩ | ⟨-, -, -, hlen⟩)
                  · exact List.noConfusion h
                  · simp only [List.getElem?_cons_zero, Option.some.injEq] at h0
                    exact absurd h0 hneg
                  · simp only [List.length_cons] at hlen
                    exact absurd hlen (by omega)
            · simp [requestStep, hneg, hsid]
  · cases h : requestStep sid subFunction d <;> simp [request, h]

/-- Witness for C10: a one-byte positive response to a request with a
sub-function panics, while the same datagram without a sub-function request
returns normally; a two-byte negative response also panics. -/
theorem uds_request_panic_characterization_witness :
    requestStep 0x10 (some 0x02) [0x50] = .panicked ∧
    request 0x10 (some 0x02) [[0x50]] = .panicked ∧
    requestStep 0x10 none [0x7f, 0x10] = .panicked := by
  refine ⟨?_, ?_, ?_⟩
  · exact (uds_request_panic_characterization 0x10 (some 0x02) [0x50] []).1.mpr (by decide)
  · have h1 := (uds_request_panic_characterization 0x10 (some 0x02) [0x50] []).1.mpr (by decide)
    exact (uds_request_panic_characterization 0x10 (some 0x02) [0x50] []).2.mpr (Or.inl h1)
  · exact (uds_request_panic_characterization 0x10 none [0x7f, 0x10] []).1.mpr (by decide)

/-- C9: a First Frame arriving while a multi-frame reassembly is already in
progress (the declared total length is known) makes the receive return
OutOfOrder for that datagram instead of restarting reassembly. -/
theorem recv_first_frame_during_reassembly_out_of_order
    (cfg : IsoTPConfig) (fdata : List Nat) (rest : List (List Nat))
    (buf : List Nat) (l : Nat) (idx : Nat) (b0 : Nat)
    (hoff : cfg.offset ≤ fdata.length)
    (h0 : (fdata.drop cfg.offset)[0]? = some b0)
    (hft : b0 &&& FRAME_TYPE_MASK = 0x10) :
    recvLoop cfg (fdata :: rest) buf (some l) idx =
      .result (.error (.IsoTPError .OutOfOrder)) := by
  simp [recvLoop, Nat.not_lt.mpr hoff, h0, hft, FrameType.fromRepr]

/-- Witness for C9: a First Frame after a First Frame already seeded a
10-byte reassembly. -/
theorem recv_first_frame_during_reassembly_witness :
    recvLoop IsoTPConfig.default [[0x10, 0x05, 1, 2, 3, 4, 5, 6]] [9, 9] (some 10) 1 =
      .result (.error (.IsoTPError .OutOfOrder)) :=
  recv_first_frame_during_reassembly_out_of_order IsoTPConfig.default
    [0x10, 0x05, 1, 2, 3, 4, 5, 6] [] [9, 9] 10 1 0x10 (by decide) (by decide) (by decide)

/-- C7: consecutive-frame handling on receive.  On a length-valid
Consecutive Frame a sequence mismatch returns OutOfOrder; an accepted frame
appends at most the remaining bytes and advances the expected sequence
number by one, wrapping from 0xF to 0x0; the reassembled buffer never
exceeds the declared length, so when the loop completes (accumulated bytes
at least the declared length) the returned datagram holds exactly the
declared number of bytes, surplus bytes of the last frame truncated; a
First Frame leaves the expected sequence number unchanged and the cycle
starts it at 1.  The hypothesis maxCanDataLength different from 0 excludes
the degenerate configurations on which the source's tx_dl - 1 subtraction
underflows (a panic in a debug build), modelled by recvConsecutiveFrame as
none. -/
theorem recv_consecutive_sequence_correct (cfg : IsoTPConfig)
    (hdl : cfg.maxCanDataLength ≠ 0) :
    (∀ data buf l idx b0, data[0]? = some b0 →
       ¬ (if l - buf.length ≥ cfg.maxCanDataLength - 1
          then data.length < cfg.maxCanDataLength
          else data.length - 1 < l - buf.length) →
       buf.length ≤ l →
       b0 &&& 0xF ≠ idx →
       recvConsecutiveFrame cfg data buf l idx = some (.error (.IsoTPError .OutOfOrder))) ∧
    (∀ data buf l idx b0, data[0]? = some b0 →
       ¬ (if l - buf.length ≥ cfg.maxCanDataLength - 1
          then data.length < cfg.maxCanDataLength
          else data.length - 1 < l - buf.length) →
       buf.length ≤ l →
       b0 &&& 0xF = idx →
       recvConsecutiveFrame cfg data buf l idx =
         some (.ok (buf ++ (data.drop 1).take (min (l - buf.length + 1) data.length - 1),
                    if idx = 0xF then 0 else idx + 1))) ∧
    (∀ data buf l idx buf2 idx2,
       recvConsecutiveFrame cfg data buf l idx = some (.ok (buf2, idx2)) →
       buf2.length ≤ l) ∧
    (∀ fdata rest buf l idx b0 buf2 idx2,
       cfg.offset ≤ fdata.length →
       (fdata.drop cfg.offset)[0]? = some b0 →
       b0 &&& FRAME_TYPE_MASK = 0x20 →
       recvConsecutiveFrame cfg (fdata.drop cfg.offset) buf l idx = some (.ok (buf2, idx2)) →
       l ≤ buf2.length →
       recvLoop cfg (fdata :: rest) buf (some l) idx = .result (.ok buf2) ∧
       buf2.length = l) ∧
    (∀ fdata rest buf idx b0 L seeded fc,
       cfg.offset ≤ fdata.length →
       (fdata.drop cfg.offset)[0]? = some b0 →
       b0 &&& FRAME_TYPE_MASK = 0x10 →
       recvFirstFrame cfg (fdata.drop cfg.offset) = some (.ok (L, seeded, fc)) →
       recvLoop cfg (fdata :: rest) buf none idx =
         recvLoop cfg rest (buf ++ seeded) (some L) idx) ∧
    (∀ frames, recvFromStream cfg frames = recvLoop cfg frames [] none 1) := by
  have hinv : ∀ data buf l idx buf2 idx2,
      recvConsecutiveFrame cfg data buf l idx = some (.ok (buf2, idx2)) →
      buf2.length ≤ l := by
    intro data buf l idx buf2 idx2 h
    simp only [recvConsecutiveFrame] at h
    repeat' split at h
    all_goals try exact Option.noConfusion h
    all_goals try (injection h with hx; exact Except.noConfusion hx)
    all_goals
      simp only [Option.some.injEq, Except.ok.injEq, Prod.mk.injEq] at h
    all_goals
      (obtain ⟨hbuf2, -⟩ := h
       subst hbuf2
       simp only [List.length_append, List.length_take, List.length_tail]
       omega)
  refine ⟨?_, ?_, hinv, ?_, ?_, ?_⟩
  · intro data buf l idx b0 h0 hmal hble hne
    simp only [recvConsecutiveFrame, h0]
    rw [if_neg (Nat.not_lt.mpr hble), if_neg hdl, if_neg hmal, if_pos hne]
  · intro data buf l idx b0 h0 hmal hble heq
    simp only [recvConsecutiveFrame, h0]
    rw [if_neg (Nat.not_lt.mpr hble), if_neg hdl, if_neg hmal, if_neg (not_not_intro heq)]
  · intro fdata rest buf l idx b0 buf2 idx2 hoff h0 hft hstep hge
    refine ⟨?_, Nat.le_antisymm (hinv _ _ _ _ _ _ hstep) hge⟩
    simp [recvLoop, Nat.not_lt.mpr hoff, h0, hft, FrameType.fromRepr, hstep, hge]
  · intro fdata rest buf idx b0 L seeded fc hoff h0 hft hff
    simp [recvLoop, Nat.not_lt.mpr hoff, h0, hft, FrameType.fromRepr, hff]
  · intro frames
    rfl

/-- Witness for C7: a mismatching sequence number (5 where 1 is expected)
returns OutOfOrder, and a matching final Consecutive Frame completes a
10-byte reassembly to exactly 10 bytes, truncating the surplus. -/
theorem recv_consecutive_sequence_correct_witness :
    recvConsecutiveFrame IsoTPConfig.default [0x25, 1, 1, 1, 1, 1, 1, 1] [] 20 1 =
      some (.error (.IsoTPError .OutOfOrder)) ∧
    recvLoop IsoTPConfig.default [[0x21, 7, 8, 9, 10, 11, 12, 13]] [1, 2, 3, 4, 5, 6]
        (some 10) 1 =
      .result (.ok [1, 2, 3, 4, 5, 6, 7, 8, 9, 10]) := by
  constructor
  · exact (recv_consecutive_sequence_correct IsoTPConfig.default (by decide)).1
      [0x25, 1, 1, 1, 1, 1, 1, 1] [] 20 1 0x25 (by decide) (by decide) (by decide) (by decide)
  · exact ((recv_consecutive_sequence_correct IsoTPConfig.default (by decide)).2.2.2.1
      [0x21, 7, 8, 9, 10, 11, 12, 13] [] [1, 2, 3, 4, 5, 6] 10 1 0x21
      [1, 2, 3, 4, 5, 6, 7, 8, 9, 10] 2
      (by decide) (by decide) (by decide) (by decide) (by decide)).1

/-- C8: a payload longer than the mode's maximum datagram length (4095
bytes for classic CAN, 2 to the 32 minus 1 for CAN-FD) makes send return
DataTooLarge with no frame handed to the CAN adapter.  The configured
max_dlen, when set, is assumed within the hardware maximum of 64 bytes, as
the spec requires, and maxCanDataLength is assumed positive, excluding the
degenerate configurations on which the source's max_can_data_length() - 1
subtraction underflows (a panic in a debug build), modelled by isotpSend
as none. -/
theorem isotp_send_data_too_large (cfg : IsoTPConfig) (data : List Nat)
    (stream : List (List Nat))
    (hdlen : ∀ m, cfg.max_dlen_ = some m → m ≤ 64)
    (hpos : 1 ≤ cfg.maxCanDataLength)
    (hlarge : cfg.maxIsotpDataLength < data.length) :
    isotpSend cfg data stream = ([], some (.error (.IsoTPError .DataTooLarge))) := by
  have hcan : cfg.canMaxDlen ≤ 8 := by
    unfold IsoTPConfig.canMaxDlen CAN_MAX_DLEN
    omega
  have hmax : cfg.maxCanDataLength ≤ 64 := by
    unfold IsoTPConfig.maxCanDataLength
    cases h : cfg.max_dlen_ with
    | none =>
      show (if cfg.fd_ then cfg.canFdMaxDlen else cfg.canMaxDlen) ≤ 64
      unfold IsoTPConfig.canFdMaxDlen IsoTPConfig.canMaxDlen CAN_FD_MAX_DLEN CAN_MAX_DLEN
      split
      · omega
      · omega
    | some m =>
      have hm := hdlen m h
      show m - cfg.offset ≤ 64
      omega
  have hiso : 4095 ≤ cfg.maxIsotpDataLength := by
    unfold IsoTPConfig.maxIsotpDataLength
    split <;> norm_num [ISO_TP_FD_MAX_DLEN, ISO_TP_MAX_DLEN]
  have hfits : ¬ (data.length < cfg.canMaxDlen ∨ data.length < cfg.maxCanDataLength - 1) := by
    omega
  have hnotle : ¬ (data.length ≤ cfg.maxIsotpDataLength) := by omega
  have hguard : ¬ (cfg.canMaxDlen ≤ data.length ∧ cfg.maxCanDataLength = 0) := by omega
  simp only [isotpSend]
  rw [if_neg hguard, if_neg hfits, if_neg hnotle]

/-- Witness for C8: a 4096-byte payload on the default classic-CAN
configuration. -/
theorem isotp_send_data_too_large_witness :
    isotpSend IsoTPConfig.default (List.replicate 4096 0x00) [] =
      ([], some (.error (.IsoTPError .DataTooLarge))) :=
  isotp_send_data_too_large IsoTPConfig.default (List.replicate 4096 0x00) []
    (fun m h => Option.noConfusion h)
    (by decide)
    (by rw [List.length_replicate]; decide)

/-- A Wait Flow Control makes receive_flow_control loop back: it consumes
one iteration of the for-loop (one unit of fuel) and awaits the next
frame. -/
theorem fc_wait_consumes_fuel (cfg : IsoTPConfig) (n : Nat)
    (fdata : List Nat) (rest : List (List Nat)) (b0 : Nat)
    (hoff : cfg.offset ≤ fdata.length)
    (h0 : (fdata.drop cfg.offset)[0]? = some b0)
    (hft : b0 &&& FRAME_TYPE_MASK = 0x30)
    (hfs : b0 &&& FLOW_SATUS_MASK = 1) :
    receiveFlowControlAux cfg (n + 1) (fdata :: rest) = receiveFlowControlAux cfg n rest := by
  simp [receiveFlowControlAux, Nat.not_lt.mpr hoff, h0, hft, hfs, FrameType.fromRepr,
    FlowStatus.fromRepr]

/-- Under the default configuration, k Wait frames consume k units of fuel
of the receive_flow_control loop. -/
theorem fc_waits_consume_fuel (k : Nat) :
    ∀ (n : Nat) (rest : List (List Nat)), k < n →
      receiveFlowControlAux IsoTPConfig.default n
          (List.replicate k [0x31, 0x00, 0x00] ++ rest) =
        receiveFlowControlAux IsoTPConfig.default (n - k) rest := by
  induction k with
  | zero => intro n rest h; simp
  | succ k ih =>
    intro n rest h
    cases n with
    | zero => omega
    | succ m =>
      rw [List.replicate_succ, List.cons_append,
        fc_wait_consumes_fuel IsoTPConfig.default m _ _ 0x31 (by decide) (by decide)
          (by decide) (by decide),
        ih m rest (by omega)]
      congr 1
      omega

/-- Under the default configuration, when every remaining iteration of the
receive_flow_control loop sees a Wait frame, the loop ends with
TooManyFCWait no matter what follows. -/
theorem fc_all_waits_abort (n : Nat) :
    ∀ ds : List (List Nat),
      receiveFlowControlAux IsoTPConfig.default n
          (List.replicate n [0x31, 0x00, 0x00] ++ ds) =
        some (.error (.IsoTPError .TooManyFCWait)) := by
  induction n with
  | zero => intro ds; rfl
  | succ m ih =>
    intro ds
    rw [List.replicate_succ, List.cons_append,
      fc_wait_consumes_fuel IsoTPConfig.default m _ _ 0x31 (by decide) (by decide)
        (by decide) (by decide),
      ih ds]

/-- Under the default configuration, a ContinueToSend frame announcing
block size 5 and STmin 2 ms parses successfully at any nonzero fuel. -/
theorem fc_cts_parse (j : Nat) (rest : List (List Nat)) :
    receiveFlowControlAux IsoTPConfig.default (j + 1) ([0x30, 0x05, 0x02] :: rest) =
      some (.ok ({ block_size := 5, separation_time_min := 2000 }, rest)) := rfl

/-- C5 counterexample: ten consecutive Wait Flow Controls followed by a
ContinueToSend already abort with TooManyFCWait; the ContinueToSend is
never read, because the loop reads at most MAX_WAIT_FC = 10 flow controls
in total.  The claim says every run of k Waits with k at most 10 followed
by a ContinueToSend lets the transmission proceed; this input has k = 10
and aborts. -/
theorem fc_wait_ten_counterexample :
    receiveFlowControl IsoTPConfig.default
        (List.replicate 10 [0x31, 0x00, 0x00] ++ [[0x30, 0x05, 0x02]]) =
      some (.error (.IsoTPError .TooManyFCWait)) := by
  decide

/-- C5 amended: a Wait Flow Control makes the sender loop back and await
another Flow Control; a run of k consecutive Waits followed by a
ContinueToSend lets the transmission proceed for every k at most 9, while
10 consecutive Waits abort with TooManyFCWait regardless of what follows
(the loop reads at most MAX_WAIT_FC = 10 flow controls, so the tenth Wait
exhausts it); a flow-status Overflow aborts the send with Overflow. -/
theorem receive_flow_control_wait_behavior :
    (∀ (cfg : IsoTPConfig) (n : Nat) (fdata : List Nat) (rest : List (List Nat)) (b0 : Nat),
       cfg.offset ≤ fdata.length →
       (fdata.drop cfg.offset)[0]? = some b0 →
       b0 &&& FRAME_TYPE_MASK = 0x30 →
       b0 &&& FLOW_SATUS_MASK = 1 →
       receiveFlowControlAux cfg (n + 1) (fdata :: rest) =
         receiveFlowControlAux cfg n rest) ∧
    (∀ (k : Nat) (rest : List (List Nat)), k ≤ 9 →
       receiveFlowControl IsoTPConfig.default
           (List.replicate k [0x31, 0x00, 0x00] ++ [0x30, 0x05, 0x02] :: rest) =
         some (.ok ({ block_size := 5, separation_time_min := 2000 }, rest))) ∧
    (∀ ds : List (List Nat),
       receiveFlowControl IsoTPConfig.default (List.replicate 10 [0x31, 0x00, 0x00] ++ ds) =
         some (.error (.IsoTPError .TooManyFCWait))) ∧
    (∀ (cfg : IsoTPConfig) (n : Nat) (fdata : List Nat) (rest : List (List Nat)) (b0 : Nat),
       cfg.offset ≤ fdata.length →
       (fdata.drop cfg.offset)[0]? = some b0 →
       b0 &&& FRAME_TYPE_MASK = 0x30 →
       b0 &&& FLOW_SATUS_MASK = 2 →
       receiveFlowControlAux cfg (n + 1) (fdata :: rest) =
         some (.error (.IsoTPError .Overflow))) := by
  refine ⟨fc_wait_consumes_fuel, ?_, fun ds => fc_all_waits_abort 10 ds, ?_⟩
  · intro k rest hk
    unfold receiveFlowControl MAX_WAIT_FC
    rw [fc_waits_consume_fuel k 10 _ (by omega), show 10 - k = (9 - k) + 1 by omega,
      fc_cts_parse]
  · intro cfg n fdata rest b0 hoff h0 hft hfs
    simp [receiveFlowControlAux, Nat.not_lt.mpr hoff, h0, hft, hfs, FrameType.fromRepr,
      FlowStatus.fromRepr]

/-- Witness for the amended C5 theorem: nine Waits followed by a
ContinueToSend succeed; a single Overflow frame aborts. -/
theorem receive_flow_control_wait_behavior_witness :
    receiveFlowControl IsoTPConfig.default
        (List.replicate 9 [0x31, 0x00, 0x00] ++ [0x30, 0x05, 0x02] :: []) =
      some (.ok ({ block_size := 5, separation_time_min := 2000 }, [])) ∧
    receiveFlowControlAux IsoTPConfig.default (9 + 1) ([0x32, 0x00, 0x00] :: []) =
      some (.error (.IsoTPError .Overflow)) :=
  ⟨receive_flow_control_wait_behavior.2.1 9 [] (by decide),
   receive_flow_control_wait_behavior.2.2.2 IsoTPConfig.default 9 [0x32, 0x00, 0x00] [] 0x32
     (by decide) (by decide) (by decide) (by decide)⟩

/-- The high nibble of a Consecutive Frame header byte is 0x20. -/
theorem or_0x20_and_f0 (s : Nat) (hs : s < 16) : (0x20 ||| s) &&& 0xf0 = 0x20 := by
  interval_cases s <;> decide

/-- The high nibble of a First Frame header byte is 0x10. -/
theorem or_0x10_and_f0 (s : Nat) (hs : s < 16) : (0x10 ||| s) &&& 0xf0 = 0x10 := by
  interval_cases s <;> decide

/-- chunksOf splits a replicated list of 7 k elements into k full chunks of
7 whenever the fuel covers the length. -/
theorem chunksOfAux_replicate (k : Nat) :
    ∀ fuel : Nat, 7 * k ≤ fuel →
      chunksOfAux 7 fuel (List.replicate (7 * k) 0x55) =
        List.replicate k (List.replicate 7 0x55) := by
  induction k with
  | zero =>
    intro fuel _
    cases fuel <;> simp [chunksOfAux]
  | succ k ih =>
    intro fuel hf
    cases fuel with
    | zero => omega
    | succ f =>
      have h7 : 7 * (k + 1) = 7 * k + 7 := by omega
      rw [h7]
      have hne : List.replicate (7 * k + 7) 0x55 ≠ [] := by
        simp [← List.length_eq_zero]
      rw [show chunksOfAux 7 (f + 1) (List.replicate (7 * k + 7) 0x55) =
          (List.replicate (7 * k + 7) 0x55).take 7 ::
            chunksOfAux 7 f ((List.replicate (7 * k + 7) 0x55).drop 7) from ?_]
      · rw [List.take_replicate, List.drop_replicate, show (7 ⊓ (7 * k + 7)) = 7 by omega,
          show 7 * k + 7 - 7 = 7 * k by omega, ih f (by omega)]
        exact (List.replicate_succ _ _).symm
      · cases hl : List.replicate (7 * k + 7) 0x55 with
        | nil => exact absurd hl hne
        | cons a as => rw [← hl]; rfl

/-- The chunks of the post-header payload of a 7 n + 6 byte datagram are n
full 7-byte chunks. -/
theorem chunksOf_replicate (n : Nat) :
    chunksOf 7 (List.replicate (7 * n) 0x55) = List.replicate n (List.replicate 7 0x55) := by
  unfold chunksOf
  rw [List.length_replicate]
  exact chunksOfAux_replicate n (7 * n) (by omega)

/-- Distance to the next block boundary: if the current index is not a
multiple of the block size, the distance decreases by one at the next
index. -/
theorem fc_block_gap_succ (B idx : Nat) (hB : 1 ≤ B) (h : idx % B ≠ 0) :
    (B - idx % B) % B = (B - (idx + 1) % B) % B + 1 := by
  have hlt : idx % B < B := Nat.mod_lt _ (by omega)
  have hB2 : 2 ≤ B := by
    by_contra hb
    have hb1 : B = 1 := by omega
    subst hb1
    simp [Nat.mod_one] at h
  have h1 : (idx + 1) % B = (idx % B + 1) % B := by
    conv_lhs => rw [Nat.add_mod]
    rw [Nat.mod_eq_of_lt (show 1 < B by omega)]
  rw [h1]
  by_cases hcase : idx % B + 1 = B
  · have e1 : B - idx % B = 1 := by omega
    rw [hcase, Nat.mod_self, Nat.sub_zero, Nat.mod_self, e1,
      Nat.mod_eq_of_lt (show 1 < B by omega)]
  · rw [Nat.mod_eq_of_lt (show idx % B + 1 < B by omega),
      Nat.mod_eq_of_lt (show B - idx % B < B by omega),
      Nat.mod_eq_of_lt (show B - (idx % B + 1) < B by omega)]
    omega

/-- At index 1 the distance to the next block boundary is the block size
minus one. -/
theorem fc_gap_one (B : Nat) (hB : 1 ≤ B) : (B - 1 % B) % B = B - 1 := by
  rcases Nat.lt_or_ge B 2 with h2 | h2
  · have hb1 : B = 1 := by omega
    subst hb1
    rfl
  · rw [Nat.mod_eq_of_lt (show 1 < B from h2), Nat.mod_eq_of_lt (show B - 1 < B by omega)]

/-- A full 7-byte chunk always produces a well-formed Consecutive Frame
under any configuration without extended addressing. -/
theorem scf_isCF (cfg : IsoTPConfig) (hext : cfg.ext_address_ = none) (idx : Nat) :
    sendConsecutiveFrame cfg (List.replicate 7 0x55) idx =
      some (.ok { bus := cfg.bus_, id := cfg.tx_,
                  data := (0x20 ||| (idx + 1) % 16) :: List.replicate 7 0x55,
                  loopback := false, fd := cfg.fd_ }) ∧
    TxEvent.isCF 0 (.tx { bus := cfg.bus_, id := cfg.tx_,
                          data := (0x20 ||| (idx + 1) % 16) :: List.replicate 7 0x55,
                          loopback := false, fd := cfg.fd_ }) = true := by
  constructor
  · have hoff : cfg.offset = 0 := by simp [IsoTPConfig.offset, hext]
    simp only [sendConsecutiveFrame, IsoTPConfig.pad, IsoTPConfig.frame, hext, hoff]
    cases hp : cfg.padding_ <;>
      simp [CAN_MAX_DLEN, DLC_TO_LEN, List.length_replicate]
  · simp only [TxEvent.isCF, List.getD_cons_zero]
    rw [or_0x20_and_f0 _ (Nat.mod_lt _ (by omega))]
    rfl

/-- Evaluation of send_first_frame on a 7 n + 6 byte payload under a
classic-CAN configuration without extended addressing: the First Frame
carries the 12-bit length header and the first 6 payload bytes. -/
theorem sff_eval (cfg : IsoTPConfig) (hext : cfg.ext_address_ = none)
    (hfd : cfg.fd_ = false) (hmd : cfg.max_dlen_ = none) (n : Nat) (hn : 1 ≤ n)
    (hn2 : n ≤ 584) :
    sendFirstFrame cfg (List.replicate (7 * n + 6) 0x55) =
      some (.ok ({ bus := cfg.bus_, id := cfg.tx_,
                   data := ffHeader (7 * n + 6) ++ List.replicate 6 0x55,
                   loopback := false, fd := cfg.fd_ }, 2)) := by
  have hoff : cfg.offset = 0 := by simp [IsoTPConfig.offset, hext]
  have hmax : cfg.maxCanDataLength = 8 := by
    simp [IsoTPConfig.maxCanDataLength, hmd, hfd, IsoTPConfig.canMaxDlen, hoff, CAN_MAX_DLEN]
  have hiso : 7 * n + 6 ≤ ISO_TP_MAX_DLEN := by
    unfold ISO_TP_MAX_DLEN
    omega
  simp only [sendFirstFrame, List.length_replicate, hmax, if_pos hiso, List.length_cons,
    List.length_nil, Nat.reduceAdd]
  rw [if_neg (by norm_num), if_neg (by omega), show (8 : Nat) - 2 = 6 from rfl,
    List.take_replicate, show (6 ⊓ (7 * n + 6)) = 6 from by omega]
  simp [IsoTPConfig.frame, hext, DLC_TO_LEN, List.length_append, List.length_replicate,
    ffHeader]

/-- A frame starting with the First Frame header bytes is not a
Consecutive Frame. -/
theorem isCF_ffHeader (b : Nat) (i : Identifier) (fdv : Bool) (len : Nat) (l : List Nat) :
    TxEvent.isCF 0 (.tx { bus := b, id := i, data := ffHeader len ++ l,
                          loopback := false, fd := fdv }) = false := by
  simp only [TxEvent.isCF, ffHeader, List.cons_append, List.getD_cons_zero]
  rw [or_0x10_and_f0 _ (Nat.mod_lt _ (by omega))]
  rfl

/-- Evaluation of receive_flow_control on an initial ContinueToSend that
announces block size B and STmin 5 ms, under a configuration without
extended addressing. -/
theorem fc_initial_parse (cfg : IsoTPConfig) (hext : cfg.ext_address_ = none)
    (B : Nat) (rest : List (List Nat)) :
    receiveFlowControl cfg ([0x30, B, 0x05] :: rest) =
      some (.ok ({ block_size := B, separation_time_min := 5000 }, rest)) := by
  have hoff : cfg.offset = 0 := by simp [IsoTPConfig.offset, hext]
  unfold receiveFlowControl MAX_WAIT_FC
  show receiveFlowControlAux cfg (9 + 1) ([0x30, B, 0x05] :: rest) = _
  simp only [receiveFlowControlAux, hoff]
  norm_num [FrameType.fromRepr, FlowStatus.fromRepr, FlowControlConfig.tryFrom,
    FRAME_TYPE_MASK, FLOW_SATUS_MASK, durationFromMillis,
    show (48 : Nat) &&& 240 = 48 from by decide, show (48 : Nat) &&& 15 = 0 from by decide]

/-- Structure of the Consecutive Frame loop of send_multiple when the
remaining flow-control stream is empty: starting at index idx (at least 1),
with g the distance to the next block boundary (g = (B - idx mod B) mod B),
the loop emits min (g + 1) m Consecutive Frames and min g (m - 1)
separation sleeps; it completes normally when at most g chunks remain, and
otherwise stops right after the boundary frame, awaiting a Flow Control
that never arrives (Timeout). -/
theorem sendMultipleLoop_empty_stream (cfg : IsoTPConfig) (hext : cfg.ext_address_ = none)
    (stMin s B : Nat) (hB : 1 ≤ B) :
    ∀ (m idx : Nat), 1 ≤ idx →
      ((sendMultipleLoop cfg stMin { block_size := B, separation_time_min := s } []
          (List.replicate m (List.replicate 7 0x55)) idx).1.filter (TxEvent.isCF 0)).length =
        min ((B - idx % B) % B + 1) m ∧
      (sendMultipleLoop cfg stMin { block_size := B, separation_time_min := s } []
          (List.replicate m (List.replicate 7 0x55)) idx).1.filter TxEvent.isSleep =
        List.replicate (min ((B - idx % B) % B) (m - 1)) (TxEvent.sleep stMin) ∧
      (sendMultipleLoop cfg stMin { block_size := B, separation_time_min := s } []
          (List.replicate m (List.replicate 7 0x55)) idx).2 =
        (if (B - idx % B) % B < m then some (.error .Timeout) else some (.ok ())) := by
  have hsleepCF : ∀ u, TxEvent.isCF 0 (TxEvent.sleep u) = false := fun _ => rfl
  have htxSleep : ∀ fr, TxEvent.isSleep (TxEvent.tx fr) = false := fun _ => rfl
  have hsleepSleep : ∀ u, TxEvent.isSleep (TxEvent.sleep u) = true := fun _ => rfl
  intro m
  induction m with
  | zero =>
    intro idx hidx
    refine ⟨?_, ?_, ?_⟩ <;> simp [sendMultipleLoop]
  | succ m ih =>
    intro idx hidx
    obtain ⟨hscf, hcf⟩ := scf_isCF cfg hext idx
    rw [List.replicate_succ]
    simp only [sendMultipleLoop, hscf]
    by_cases hb : idx % B = 0
    · rw [if_pos ⟨by omega, by omega, hb⟩]
      have hrfc : receiveFlowControl cfg [] = some (.error .Timeout) := rfl
      simp only [hrfc]
      refine ⟨?_, ?_, ?_⟩
      · simp [-List.reduceReplicate, List.filter_cons, hcf, hb, Nat.mod_self]
      · simp [-List.reduceReplicate, List.filter_cons, htxSleep, hb, Nat.mod_self]
      · simp [hb, Nat.mod_self]
    · rw [if_neg (fun hC => hb hC.2.2)]
      have hg := fc_block_gap_succ B idx hB hb
      obtain ⟨hc1, hc2, hc3⟩ := ih (idx + 1) (by omega)
      set g2 := (B - (idx + 1) % B) % B with hg2def
      set g1 := (B - idx % B) % B with hg1def
      cases m with
      | zero =>
        simp only [List.replicate_zero] at hc1 hc2 hc3
        refine ⟨?_, ?_, ?_⟩
        · simp only [List.replicate_zero, List.isEmpty_nil, if_true, List.nil_append]
          simp [-List.reduceReplicate, List.filter_cons, hcf, hc1]
        · simp only [List.replicate_zero, List.isEmpty_nil, if_true, List.nil_append]
          simp [-List.reduceReplicate, List.filter_cons, htxSleep, hc2]
        · simp only [List.replicate_zero]
          rw [hc3, if_neg (by omega), if_neg (by omega)]
      | succ m2 =>
        have hne : (List.replicate (m2 + 1) (List.replicate 7 0x55)).isEmpty = false := by
          simp [List.isEmpty_replicate]
        rw [hne]
        refine ⟨?_, ?_, ?_⟩
        · simp only [Bool.false_eq_true, if_false, List.cons_append, List.nil_append]
          simp [-List.reduceReplicate, List.filter_cons, List.filter_append, hcf, hsleepCF, hc1]
          omega
        · simp only [Bool.false_eq_true, if_false, List.cons_append, List.nil_append]
          simp [-List.reduceReplicate, List.filter_cons, List.filter_append, htxSleep,
            hsleepSleep, hc2]
          rw [show g1 ⊓ (m2 + 1) = g2 ⊓ m2 + 1 from by omega, List.replicate_succ]
        · simp only [Bool.false_eq_true, if_false]
          exact hc3.trans (if_congr (by omega) rfl rfl)

/-- A full send_multiple run on a 7 n + 6 byte payload whose peer answers
the First Frame with a single ContinueToSend announcing block size B and
STmin 5 ms, and then goes silent: the sender emits min (B + 1) n
Consecutive Frames (B + 1 in the first block when enough chunks remain),
sleeps the effective separation time min B (n - 1) times, and either
completes (when n is at most B) or times out awaiting the next Flow
Control. -/
theorem sendMultiple_block_run (cfg : IsoTPConfig) (hext : cfg.ext_address_ = none)
    (hfd : cfg.fd_ = false) (hmd : cfg.max_dlen_ = none) (stEff : Nat)
    (hst : cfg.separation_time_min_ = none ∧ stEff = 5000 ∨
      cfg.separation_time_min_ = some stEff)
    (B n : Nat) (hB : 1 ≤ B) (hn : 1 ≤ n) (hn2 : n ≤ 584) :
    ((sendMultiple cfg (List.replicate (7 * n + 6) 0x55) [[0x30, B, 0x05]]).1.filter
        (TxEvent.isCF 0)).length = min (B + 1) n ∧
    (sendMultiple cfg (List.replicate (7 * n + 6) 0x55) [[0x30, B, 0x05]]).1.filter
        TxEvent.isSleep = List.replicate (min B (n - 1)) (TxEvent.sleep stEff) ∧
    (sendMultiple cfg (List.replicate (7 * n + 6) 0x55) [[0x30, B, 0x05]]).2 =
      (if B < n then some (.error .Timeout) else some (.ok ())) := by
  have hoff : cfg.offset = 0 := by simp [IsoTPConfig.offset, hext]
  have hmax : cfg.maxCanDataLength = 8 := by
    simp [IsoTPConfig.maxCanDataLength, hmd, hfd, IsoTPConfig.canMaxDlen, hoff, CAN_MAX_DLEN]
  simp only [sendMultiple, sff_eval cfg hext hfd hmd n hn hn2,
    fc_initial_parse cfg hext B [], hmax]
  rw [if_neg (by rw [List.length_replicate]; omega)]
  rw [show (8 : Nat) - 1 = 7 from rfl, show (8 : Nat) - 2 = 6 from rfl, List.drop_replicate,
    show 7 * n + 6 - 6 = 7 * n from by omega, chunksOf_replicate n]
  have hstEq : (match cfg.separation_time_min_ with
      | some st => st
      | none => ({ block_size := B, separation_time_min := 5000 } :
          FlowControlConfig).separation_time_min) = stEff := by
    rcases hst with ⟨hnone, rfl⟩ | hsome
    · rw [hnone]
    · rw [hsome]
  rw [hstEq]
  obtain ⟨k, rfl⟩ : ∃ k, n = k + 1 := ⟨n - 1, by omega⟩
  obtain ⟨hscf, -⟩ := scf_isCF cfg hext 0
  rw [List.replicate_succ]
  simp only [sendMultipleLoop, hscf]
  rw [if_neg (fun hC => Nat.lt_irrefl 0 hC.2.1)]
  obtain ⟨l1, l2, l3⟩ := sendMultipleLoop_empty_stream cfg hext stEff 5000 B hB k 1 (by omega)
  rw [fc_gap_one B hB] at l1 l2 l3
  have hcf0 : TxEvent.isCF 0 (.tx { bus := cfg.bus_, id := cfg.tx_,
                                    data := 33 :: List.replicate 7 0x55,
                                    loopback := false, fd := cfg.fd_ }) = true := by
    simp [TxEvent.isCF, List.getD_cons_zero, show (33 : Nat) &&& 240 = 32 from by decide]
  have hsleepCF : ∀ u, TxEvent.isCF 0 (TxEvent.sleep u) = false := fun _ => rfl
  cases k with
  | zero =>
    simp only [List.replicate_zero] at l1 l2 l3
    refine ⟨?_, ?_, ?_⟩
    · simp only [List.replicate_zero, List.isEmpty_nil, if_true, List.nil_append]
      simp [-List.reduceReplicate, List.filter_cons, isCF_ffHeader, hcf0, l1]
    · simp only [List.replicate_zero, List.isEmpty_nil, if_true, List.nil_append]
      simp [-List.reduceReplicate, List.filter_cons, TxEvent.isSleep, l2]
    · simp only [List.replicate_zero]
      rw [l3, if_neg (by omega), if_neg (by omega)]
  | succ k2 =>
    have hne : (List.replicate (k2 + 1) (List.replicate 7 0x55)).isEmpty = false := by
      simp [List.isEmpty_replicate]
    rw [hne]
    refine ⟨?_, ?_, ?_⟩
    · simp only [Bool.false_eq_true, if_false, List.cons_append, List.nil_append]
      simp [-List.reduceReplicate, List.filter_cons, List.filter_append, isCF_ffHeader,
        hcf0, hsleepCF, l1]
      omega
    · simp only [Bool.false_eq_true, if_false, List.cons_append, List.nil_append]
      simp [-List.reduceReplicate, List.filter_cons, List.filter_append, TxEvent.isSleep, l2]
      rw [show B ⊓ (k2 + 1) = (B - 1) ⊓ k2 + 1 from by omega, List.replicate_succ]
    · simp only [Bool.false_eq_true, if_false]
      exact l3.trans (if_congr (by omega) rfl rfl)

/-- C6 counterexample: a 27-byte payload (First Frame plus three 7-byte
chunks) sent with a single ContinueToSend announcing block size 1 and
STmin 0.  The claim says that with B = 1 the sender waits for a new Flow
Control after every single Consecutive Frame, so the second Consecutive
Frame of the first block must not be sent before a second Flow Control
arrives.  The stream supplies no second Flow Control, yet the trace
contains two Consecutive Frames (headers 0x21 and 0x22): the loop only
waits after frames whose zero-based index is a positive multiple of the
block size, so the first block holds B + 1 frames. -/
theorem send_multiple_block_size_counterexample :
    sendMultiple IsoTPConfig.default (List.replicate 27 0x55) [[0x30, 0x01, 0x00]] =
      ([TxEvent.tx { bus := 0, id := .Standard 0,
                     data := [0x10, 0x1B, 0x55, 0x55, 0x55, 0x55, 0x55, 0x55],
                     loopback := false, fd := false },
        TxEvent.tx { bus := 0, id := .Standard 0,
                     data := [0x21, 0x55, 0x55, 0x55, 0x55, 0x55, 0x55, 0x55],
                     loopback := false, fd := false },
        TxEvent.sleep 0,
        TxEvent.tx { bus := 0, id := .Standard 0,
                     data := [0x22, 0x55, 0x55, 0x55, 0x55, 0x55, 0x55, 0x55],
                     loopback := false, fd := false }],
       some (.error .Timeout)) := by
  decide

/-- C6 amended: during a multi-frame send whose initial ContinueToSend
announces block size B at least 1 (and STmin 5 ms), the sender waits for a
new Flow Control after every Consecutive Frame whose zero-based index is a
positive multiple of B, so the first block contains B + 1 Consecutive
Frames and every further block B frames: on an n-chunk payload it emits
min (B + 1) n Consecutive Frames before requiring a second Flow Control,
completing only when n is at most B.  Between Consecutive Frames not
followed by a Flow Control wait it sleeps the effective STmin: the peer
value from the initial Flow Control by default (5 ms here), the configured
separation_time_min override when set (3 ms here). -/
theorem send_multiple_block_structure (B n : Nat) (hB : 1 ≤ B) (hn : 1 ≤ n)
    (hn2 : n ≤ 584) :
    ((sendMultiple IsoTPConfig.default (List.replicate (7 * n + 6) 0x55)
        [[0x30, B, 0x05]]).1.filter (TxEvent.isCF 0)).length = min (B + 1) n ∧
    (sendMultiple IsoTPConfig.default (List.replicate (7 * n + 6) 0x55)
        [[0x30, B, 0x05]]).1.filter TxEvent.isSleep =
      List.replicate (min B (n - 1)) (TxEvent.sleep 5000) ∧
    (sendMultiple IsoTPConfig.default (List.replicate (7 * n + 6) 0x55)
        [[0x30, B, 0x05]]).2 =
      (if B < n then some (.error .Timeout) else some (.ok ())) ∧
    (sendMultiple overrideConfig (List.replicate (7 * n + 6) 0x55)
        [[0x30, B, 0x05]]).1.filter TxEvent.isSleep =
      List.replicate (min B (n - 1)) (TxEvent.sleep 3000) := by
  obtain ⟨d1, d2, d3⟩ := sendMultiple_block_run IsoTPConfig.default rfl rfl rfl 5000
    (Or.inl ⟨rfl, rfl⟩) B n hB hn hn2
  obtain ⟨-, o2, -⟩ := sendMultiple_block_run overrideConfig rfl rfl rfl 3000
    (Or.inr rfl) B n hB hn hn2
  exact ⟨d1, d2, d3, o2⟩

/-- Witness for the amended C6 theorem at block size 2 and 5 chunks: three
Consecutive Frames (the first block of B + 1 = 3) are emitted before the
run times out awaiting a second Flow Control, and under the override
configuration the sleeps use the 3 ms override. -/
theorem send_multiple_block_structure_witness :
    ((sendMultiple IsoTPConfig.default (List.replicate (7 * 5 + 6) 0x55)
        [[0x30, 2, 0x05]]).1.filter (TxEvent.isCF 0)).length = 3 ∧
    (sendMultiple IsoTPConfig.default (List.replicate (7 * 5 + 6) 0x55)
        [[0x30, 2, 0x05]]).2 = some (.error .Timeout) ∧
    (sendMultiple overrideConfig (List.replicate (7 * 5 + 6) 0x55)
        [[0x30, 2, 0x05]]).1.filter TxEvent.isSleep =
      List.replicate 2 (TxEvent.sleep 3000) := by
  obtain ⟨h1, -, h3, h4⟩ := send_multiple_block_structure 2 5 (by omega) (by omega)
    (by omega)
  exact ⟨h1.trans (by decide), h3.trans (by decide), h4.trans (by decide)⟩

end Automotive
